import Mathlib

/-!
Verification of the OAC Wifi device-registration client (src/App.tsx).

The component keeps four pieces of state (`fullName`, `currentIp`, `status`,
`errorMessage`), fetches the caller's public IP once at startup (`fetchIp`),
and gates a webhook POST on a non-empty trimmed name and an exact match of
the detected IP against the configured office IP (`handleRegister`).
We embed the state, the two handlers, and the event structure of the UI as
a step relation, and prove the spec's properties about them.
-/

namespace OACWifi

/-- The `AppStatus` union type of src/App.tsx:
`'idle' | 'loading_ip' | 'ready' | 'submitting' | 'success' | 'error'`. -/
inductive AppStatus where
  | idle
  | loading_ip
  | ready
  | submitting
  | success
  | error
deriving DecidableEq, Repr

/-- Session state: the four `useState` hooks of the `App` component.
`currentIp` is `Option String` (`string | null`, and `undefined` when the
lookup body lacks the `ip` field); `errorMessage` is `string | null`. -/
structure SessionState where
  fullName : String
  currentIp : Option String
  status : AppStatus
  errorMessage : Option String
deriving DecidableEq, Repr

/-- The payload built in `handleRegister`:
`{ name: fullName, userAgent: navigator.userAgent, ip: currentIp }`. -/
structure RegistrationPayload where
  name : String
  userAgent : String
  ip : String
deriving DecidableEq, Repr

/-- Message set by the empty-name validation branch (line 36). -/
def nameRequiredMsg : String := "Please enter your full name."

/-- Message set by the wrong-network branch (line 41). -/
def wrongNetworkMsg : String := "Vui lòng dùng Wifi OAC"

/-- Message set by the `fetchIp` catch branch (line 23). -/
def ipFetchErrorMsg : String := "Could not verify your network connection."

/-- Message set by the submission catch branch (line 72). -/
def submissionErrorMsg : String := "An error occurred during registration. Please try again."

/-- The whitespace set of ECMAScript's `String.prototype.trim()`:
the WhiteSpace production (TAB, VT, FF, SP, NBSP, ZWNBSP and the Unicode
Space_Separator category) together with the LineTerminator production
(LF, CR, LS, PS). -/
def isJsWhitespace (c : Char) : Bool :=
  c.toNat = 0x09 || c.toNat = 0x0A || c.toNat = 0x0B || c.toNat = 0x0C ||
  c.toNat = 0x0D || c.toNat = 0x20 || c.toNat = 0xA0 || c.toNat = 0x1680 ||
  (0x2000 ≤ c.toNat && c.toNat ≤ 0x200A) ||
  c.toNat = 0x2028 || c.toNat = 0x2029 || c.toNat = 0x202F ||
  c.toNat = 0x205F || c.toNat = 0x3000 || c.toNat = 0xFEFF

/-- ECMAScript `String.prototype.trim()`: remove leading and trailing
whitespace. Defined structurally over the character list so it is
kernel-computable. -/
def jsTrim (s : String) : String :=
  ⟨((s.data.dropWhile isJsWhitespace).reverse.dropWhile isJsWhitespace).reverse⟩

/-- Initial values of the four `useState` hooks: empty name, no IP,
status `'loading_ip'`, no error message. -/
def initState : SessionState :=
  { fullName := "", currentIp := none, status := .loading_ip, errorMessage := none }

/-- Outcome of the identity lookup performed by `fetchIp`:
the `fetch` call may throw (`netError`), return a non-ok response (`notOk`),
return a body that `response.json()` cannot parse (`badJson`), or parse to
structured data whose `ip` field is a string or absent (`okJson`). -/
inductive FetchResult where
  | netError
  | notOk
  | badJson
  | okJson (ipField : Option String)
deriving DecidableEq, Repr

/-- State update performed by `fetchIp` once its lookup settles.
On a parsed body it stores `data.ip` (possibly absent) and sets status
`ready`; every throwing path lands in the catch branch, which sets the
connectivity message and status `error` and leaves `currentIp` untouched. -/
def fetchIpUpdate (s : SessionState) (r : FetchResult) : SessionState :=
  match r with
  | .okJson ipField => { s with currentIp := ipField, status := .ready }
  | _ => { s with errorMessage := some ipFetchErrorMsg, status := .error }

/-- Transport outcome of the webhook POST. With `mode: 'no-cors'` the
response is opaque, so only "the fetch promise resolved" (`ok`) versus
"the fetch promise rejected" (`exn`) is observable. -/
inductive Transport where
  | ok
  | exn
deriving DecidableEq, Repr

/-- The `handleRegister` submit handler, as a function of the current state,
the configured office IP (`OFFICE_IP` comes from the missing `constants.ts`,
so it is a parameter here), the caller's user-agent string, and the
transport outcome of the POST. Returns the final state, the list of
statuses set by `setStatus` during the run, and the list of payloads
POSTed to the webhook. -/
def handleRegister (office : String) (s : SessionState) (ua : String) (t : Transport) :
    SessionState × List AppStatus × List RegistrationPayload :=
  if jsTrim s.fullName = "" then
    ({ s with errorMessage := some nameRequiredMsg }, [], [])
  else
    match s.currentIp with
    | none => ({ s with errorMessage := some wrongNetworkMsg }, [], [])
    | some ip =>
      if ip = office then
        let payload : RegistrationPayload :=
          { name := s.fullName, userAgent := ua, ip := ip }
        match t with
        | .ok =>
            ({ s with errorMessage := none, status := .success },
              [.submitting, .success], [payload])
        | .exn =>
            ({ s with errorMessage := some submissionErrorMsg, status := .ready },
              [.submitting, .ready], [payload])
      else
        ({ s with errorMessage := some wrongNetworkMsg }, [], [])

/-- The disabled condition shared by the name input (line 140) and the
submit button (line 162): `status === 'submitting' || status === 'loading_ip'`. -/
def inputDisabled (s : SessionState) : Bool :=
  match s.status with
  | .submitting => true
  | .loading_ip => true
  | _ => false

/-- The "Register another device" click handler (line 105):
`setStatus('ready'); setFullName('')`. -/
def resetAction (s : SessionState) : SessionState :=
  { s with status := .ready, fullName := "" }

/-- One event of the session, as fine-grained steps so that intermediate
states (e.g. `submitting`) appear in the trace. Form events require the
form to be rendered (`status ≠ success`) and the controls enabled
(`inputDisabled = false`); the completion steps of the submission require
the in-flight `submitting` status. -/
inductive Step (office : String) : SessionState → SessionState → Prop where
  | fetchDone (s : SessionState) (r : FetchResult) :
      s.status = .loading_ip →
      Step office s (fetchIpUpdate s r)
  | setName (s : SessionState) (n : String) :
      s.status ≠ .success → inputDisabled s = false →
      Step office s { s with fullName := n }
  | submitNameFail (s : SessionState) :
      s.status ≠ .success → inputDisabled s = false →
      jsTrim s.fullName = "" →
      Step office s { s with errorMessage := some nameRequiredMsg }
  | submitWrongIp (s : SessionState) :
      s.status ≠ .success → inputDisabled s = false →
      jsTrim s.fullName ≠ "" → s.currentIp ≠ some office →
      Step office s { s with errorMessage := some wrongNetworkMsg }
  | submitStart (s : SessionState) :
      s.status ≠ .success → inputDisabled s = false →
      jsTrim s.fullName ≠ "" → s.currentIp = some office →
      Step office s { s with errorMessage := none, status := .submitting }
  | submitResolve (s : SessionState) :
      s.status = .submitting →
      Step office s { s with status := .success }
  | submitReject (s : SessionState) :
      s.status = .submitting →
      Step office s { s with status := .ready, errorMessage := some submissionErrorMsg }
  | reset (s : SessionState) :
      s.status = .success →
      Step office s (resetAction s)

/-- States reachable from the initial mount of the component. -/
inductive Reachable (office : String) : SessionState → Prop where
  | init : Reachable office initState
  | step {s s' : SessionState} :
      Reachable office s → Step office s s' → Reachable office s'

/-- Edges of the workflow state machine as the spec draws them, restricted
to the transitions the code can actually take (runs start directly in
`loading_ip`, see `c8_state_machine_amended`). -/
def specEdge : AppStatus → AppStatus → Bool
  | .loading_ip, .ready => true
  | .loading_ip, .error => true
  | .ready, .submitting => true
  | .submitting, .success => true
  | .submitting, .ready => true
  | .success, .ready => true
  | _, _ => false

/-- Relation between `status` and `currentIp` preserved by every step:
in `loading_ip` and `error` no address has been stored, and in
`submitting` and `success` the stored address equals the office address. -/
def ipStatusInv (office : String) (s : SessionState) : Prop :=
  ((s.status = .loading_ip ∨ s.status = .error) → s.currentIp = none) ∧
  ((s.status = .submitting ∨ s.status = .success) → s.currentIp = some office)

theorem step_preserves_ipStatusInv (office : String) {s s' : SessionState}
    (hstep : Step office s s') (hinv : ipStatusInv office s) :
    ipStatusInv office s' := by
  cases hstep with
  | fetchDone r hld =>
    have hip := hinv.1 (Or.inl hld)
    cases r with
    | okJson ipField =>
      constructor <;> · intro h; simp [fetchIpUpdate] at h
    | netError => exact ⟨fun _ => hip, fun h => by simp [fetchIpUpdate] at h⟩
    | notOk => exact ⟨fun _ => hip, fun h => by simp [fetchIpUpdate] at h⟩
    | badJson => exact ⟨fun _ => hip, fun h => by simp [fetchIpUpdate] at h⟩
  | setName n h1 h2 => exact hinv
  | submitNameFail h1 h2 h3 => exact hinv
  | submitWrongIp h1 h2 h3 h4 => exact hinv
  | submitStart h1 h2 h3 h4 =>
    exact ⟨fun h => by simp at h, fun _ => h4⟩
  | submitResolve h =>
    exact ⟨fun h => by simp at h, fun _ => hinv.2 (Or.inl h)⟩
  | submitReject h =>
    exact ⟨fun h => by simp at h, fun h => by simp at h⟩
  | reset h =>
    exact ⟨fun h => by simp [resetAction] at h, fun h => by simp [resetAction] at h⟩

theorem reachable_ipStatusInv (office : String) (s : SessionState)
    (h : Reachable office s) : ipStatusInv office s := by
  induction h with
  | init => exact ⟨fun _ => rfl, fun h => absurd h (by decide)⟩
  | step hr hstep ih => exact step_preserves_ipStatusInv office hstep ih

theorem reachable_status_ne_idle (office : String) (s : SessionState)
    (h : Reachable office s) : s.status ≠ AppStatus.idle := by
  induction h with
  | init => decide
  | step hr hstep ih =>
    cases hstep with
    | fetchDone r hld => cases r <;> simp [fetchIpUpdate]
    | setName n h1 h2 => exact ih
    | submitNameFail h1 h2 h3 => exact ih
    | submitWrongIp h1 h2 h3 h4 => exact ih
    | submitStart h1 h2 h3 h4 => simp
    | submitResolve h => simp
    | submitReject h => simp
    | reset h => simp [resetAction]

/-- C1: for every name whose trimmed form is non-empty, whenever the
detected address equals the office address, submit() clears the prior
error, passes through `submitting` to `success`, and dispatches exactly
one POST whose payload carries the entered name, the caller's user-agent
string, and the detected address. -/
theorem c1_submit_success_dispatch (office ua : String) (s : SessionState)
    (hready : s.status = AppStatus.ready) (hname : jsTrim s.fullName ≠ "")
    (hip : s.currentIp = some office) :
    (handleRegister office s ua .ok).1.status = AppStatus.success ∧
    (handleRegister office s ua .ok).1.errorMessage = none ∧
    (handleRegister office s ua .ok).2.1 = [AppStatus.submitting, AppStatus.success] ∧
    (handleRegister office s ua .ok).2.2 =
      [{ name := s.fullName, userAgent := ua, ip := office }] := by
  simp [handleRegister, hname, hip]

theorem c1_witness :
    (handleRegister "203.0.113.5"
        { fullName := "Jane Doe", currentIp := some "203.0.113.5",
          status := AppStatus.ready, errorMessage := none } "Mozilla/5.0" .ok).1.status
        = AppStatus.success ∧
    (handleRegister "203.0.113.5"
        { fullName := "Jane Doe", currentIp := some "203.0.113.5",
          status := AppStatus.ready, errorMessage := none } "Mozilla/5.0" .ok).1.errorMessage
        = none ∧
    (handleRegister "203.0.113.5"
        { fullName := "Jane Doe", currentIp := some "203.0.113.5",
          status := AppStatus.ready, errorMessage := none } "Mozilla/5.0" .ok).2.1
        = [AppStatus.submitting, AppStatus.success] ∧
    (handleRegister "203.0.113.5"
        { fullName := "Jane Doe", currentIp := some "203.0.113.5",
          status := AppStatus.ready, errorMessage := none } "Mozilla/5.0" .ok).2.2
        = [{ name := "Jane Doe", userAgent := "Mozilla/5.0", ip := "203.0.113.5" }] :=
  c1_submit_success_dispatch "203.0.113.5" "Mozilla/5.0"
    { fullName := "Jane Doe", currentIp := some "203.0.113.5",
      status := AppStatus.ready, errorMessage := none }
    rfl (by decide) rfl

/-- C2: for every name that trims to the empty string, submit() leaves the
status at `ready`, surfaces the name-required validation message, and
dispatches no POST, regardless of the detected address. -/
theorem c2_empty_name_rejected (office ua : String) (t : Transport) (s : SessionState)
    (hready : s.status = AppStatus.ready) (hname : jsTrim s.fullName = "") :
    (handleRegister office s ua t).1.status = AppStatus.ready ∧
    (handleRegister office s ua t).1.errorMessage = some nameRequiredMsg ∧
    (handleRegister office s ua t).2.2 = [] := by
  simp [handleRegister, hname, hready]

theorem c2_witness :
    (handleRegister "203.0.113.5"
        { fullName := "   ", currentIp := some "203.0.113.5",
          status := AppStatus.ready, errorMessage := none } "Mozilla/5.0" .ok).1.status
        = AppStatus.ready ∧
    (handleRegister "203.0.113.5"
        { fullName := "   ", currentIp := some "203.0.113.5",
          status := AppStatus.ready, errorMessage := none } "Mozilla/5.0" .ok).1.errorMessage
        = some nameRequiredMsg ∧
    (handleRegister "203.0.113.5"
        { fullName := "   ", currentIp := some "203.0.113.5",
          status := AppStatus.ready, errorMessage := none } "Mozilla/5.0" .ok).2.2
        = [] :=
  c2_empty_name_rejected "203.0.113.5" "Mozilla/5.0" .ok
    { fullName := "   ", currentIp := some "203.0.113.5",
      status := AppStatus.ready, errorMessage := none }
    rfl (by decide)

/-- C3: for every detected address different from the office address,
including the absent address, and every name with non-empty trimmed form,
submit() leaves the status at `ready`, sets the policy-violation message,
and dispatches no POST. -/
theorem c3_wrong_network_rejected (office ua : String) (t : Transport) (s : SessionState)
    (hready : s.status = AppStatus.ready) (hname : jsTrim s.fullName ≠ "")
    (hip : s.currentIp ≠ some office) :
    (handleRegister office s ua t).1.status = AppStatus.ready ∧
    (handleRegister office s ua t).1.errorMessage = some wrongNetworkMsg ∧
    (handleRegister office s ua t).2.2 = [] := by
  cases hcur : s.currentIp with
  | none => simp [handleRegister, hname, hcur, hready]
  | some ip =>
    have hne : ip ≠ office := fun h => hip (by rw [hcur, h])
    simp [handleRegister, hname, hcur, hne, hready]

theorem c3_witness :
    (handleRegister "203.0.113.5"
        { fullName := "Jane Doe", currentIp := some "10.0.0.9",
          status := AppStatus.ready, errorMessage := none } "Mozilla/5.0" .ok).1.status
        = AppStatus.ready ∧
    (handleRegister "203.0.113.5"
        { fullName := "Jane Doe", currentIp := some "10.0.0.9",
          status := AppStatus.ready, errorMessage := none } "Mozilla/5.0" .ok).1.errorMessage
        = some wrongNetworkMsg ∧
    (handleRegister "203.0.113.5"
        { fullName := "Jane Doe", currentIp := some "10.0.0.9",
          status := AppStatus.ready, errorMessage := none } "Mozilla/5.0" .ok).2.2
        = [] :=
  c3_wrong_network_rejected "203.0.113.5" "Mozilla/5.0" .ok
    { fullName := "Jane Doe", currentIp := some "10.0.0.9",
      status := AppStatus.ready, errorMessage := none }
    rfl (by decide) (by decide)

/-- C4: once both precondition checks pass, a POST that raises no
transport-level exception lands the workflow in `success`, while a
transport-level exception lands it back in `ready` with the submission
error message and the entered name preserved unchanged. -/
theorem c4_transport_outcome (office ua : String) (s : SessionState)
    (hname : jsTrim s.fullName ≠ "") (hip : s.currentIp = some office) :
    (handleRegister office s ua .ok).1.status = AppStatus.success ∧
    (handleRegister office s ua .exn).1.status = AppStatus.ready ∧
    (handleRegister office s ua .exn).1.errorMessage = some submissionErrorMsg ∧
    (handleRegister office s ua .exn).1.fullName = s.fullName := by
  simp [handleRegister, hname, hip]

theorem c4_witness :
    (handleRegister "203.0.113.5"
        { fullName := "Jane Doe", currentIp := some "203.0.113.5",
          status := AppStatus.ready, errorMessage := none } "ua" .ok).1.status
        = AppStatus.success ∧
    (handleRegister "203.0.113.5"
        { fullName := "Jane Doe", currentIp := some "203.0.113.5",
          status := AppStatus.ready, errorMessage := none } "ua" .exn).1.status
        = AppStatus.ready ∧
    (handleRegister "203.0.113.5"
        { fullName := "Jane Doe", currentIp := some "203.0.113.5",
          status := AppStatus.ready, errorMessage := none } "ua" .exn).1.errorMessage
        = some submissionErrorMsg ∧
    (handleRegister "203.0.113.5"
        { fullName := "Jane Doe", currentIp := some "203.0.113.5",
          status := AppStatus.ready, errorMessage := none } "ua" .exn).1.fullName
        = "Jane Doe" :=
  c4_transport_outcome "203.0.113.5" "ua"
    { fullName := "Jane Doe", currentIp := some "203.0.113.5",
      status := AppStatus.ready, errorMessage := none }
    (by decide) rfl

/-- C9: reset() from the `success` state yields `ready` with an empty
registrant name and the detected address unchanged. -/
theorem c9_reset_from_success (s : SessionState) (h : s.status = AppStatus.success) :
    (resetAction s).status = AppStatus.ready ∧ (resetAction s).fullName = "" ∧
    (resetAction s).currentIp = s.currentIp := by
  simp [resetAction]

theorem c9_witness :
    (resetAction
        { fullName := "Jane Doe", currentIp := some "203.0.113.5",
          status := AppStatus.success, errorMessage := none }).status = AppStatus.ready ∧
    (resetAction
        { fullName := "Jane Doe", currentIp := some "203.0.113.5",
          status := AppStatus.success, errorMessage := none }).fullName = "" ∧
    (resetAction
        { fullName := "Jane Doe", currentIp := some "203.0.113.5",
          status := AppStatus.success, errorMessage := none }).currentIp
      = ({ fullName := "Jane Doe", currentIp := some "203.0.113.5",
           status := AppStatus.success, errorMessage := none } : SessionState).currentIp :=
  c9_reset_from_success
    { fullName := "Jane Doe", currentIp := some "203.0.113.5",
      status := AppStatus.success, errorMessage := none }
    rfl

/-- C10: every submission that passes both checks sends the entered name
verbatim in the payload, with no trimming applied, under either transport
outcome. -/
theorem c10_payload_name_verbatim (office ua : String) (t : Transport) (s : SessionState)
    (hname : jsTrim s.fullName ≠ "") (hip : s.currentIp = some office) :
    (handleRegister office s ua t).2.2.map RegistrationPayload.name = [s.fullName] := by
  cases t <;> simp [handleRegister, hname, hip]

theorem c10_witness :
    (handleRegister "203.0.113.5"
        { fullName := "  Jane Doe  ", currentIp := some "203.0.113.5",
          status := AppStatus.ready, errorMessage := none } "ua" .ok).2.2.map
        RegistrationPayload.name = ["  Jane Doe  "] :=
  c10_payload_name_verbatim "203.0.113.5" "ua" .ok
    { fullName := "  Jane Doe  ", currentIp := some "203.0.113.5",
      status := AppStatus.ready, errorMessage := none }
    (by decide) rfl

/-- C5 counterexample: after a failed identity lookup the session is in the
`error` state, yet the disabled condition of the name input and submit
button evaluates to false, so submit() is reachable there — contradicting
the claim that the input is disabled in the `error` state. -/
theorem c5_counterexample :
    Reachable "203.0.113.5" (fetchIpUpdate initState FetchResult.netError) ∧
    (fetchIpUpdate initState FetchResult.netError).status = AppStatus.error ∧
    inputDisabled (fetchIpUpdate initState FetchResult.netError) = false :=
  ⟨Reachable.step Reachable.init (Step.fetchDone initState FetchResult.netError rfl),
   rfl, rfl⟩

/-- C5 amended: a failed identity lookup puts the session in `error`, and
every step taken from a reachable `error` state stays in `error`, so the
session remains in `error`; however the input is not disabled there —
submit() is invocable but can never change the status, because the stored
address is absent in every reachable `error` state and the address check
fails. -/
theorem c5_error_state_amended (office : String) (s s' : SessionState)
    (hr : Reachable office s) (he : s.status = AppStatus.error)
    (hstep : Step office s s') :
    s'.status = AppStatus.error ∧ inputDisabled s = false ∧
    (fetchIpUpdate initState FetchResult.netError).status = AppStatus.error := by
  have hinv := reachable_ipStatusInv office s hr
  refine ⟨?_, ?_, rfl⟩
  · cases hstep with
    | fetchDone r hld => rw [hld] at he; exact absurd he (by decide)
    | setName n h1 h2 => exact he
    | submitNameFail h1 h2 h3 => exact he
    | submitWrongIp h1 h2 h3 h4 => exact he
    | submitStart h1 h2 h3 h4 =>
      have hnone := hinv.1 (Or.inr he)
      rw [hnone] at h4
      exact absurd h4 (by simp)
    | submitResolve h => rw [h] at he; exact absurd he (by decide)
    | submitReject h => rw [h] at he; exact absurd he (by decide)
    | reset h => rw [h] at he; exact absurd he (by decide)
  · unfold inputDisabled
    rw [he]

theorem c5_witness :
    ({ fetchIpUpdate initState FetchResult.netError with fullName := "a" }).status
        = AppStatus.error ∧
    inputDisabled (fetchIpUpdate initState FetchResult.netError) = false ∧
    (fetchIpUpdate initState FetchResult.netError).status = AppStatus.error :=
  c5_error_state_amended "203.0.113.5"
    (fetchIpUpdate initState FetchResult.netError)
    { fetchIpUpdate initState FetchResult.netError with fullName := "a" }
    (Reachable.step Reachable.init (Step.fetchDone initState FetchResult.netError rfl))
    rfl
    (Step.setName (fetchIpUpdate initState FetchResult.netError) "a" (by decide) rfl)

/-- C6 counterexample: a successful response whose parseable body lacks the
`ip` field does not put the checker in `error` — it ends in `ready` with no
error message (and an absent address), contradicting the claim that every
malformed body yields a descriptive error and the `error` status. -/
theorem c6_counterexample :
    (fetchIpUpdate initState (FetchResult.okJson none)).status ≠ AppStatus.error ∧
    (fetchIpUpdate initState (FetchResult.okJson none)).status = AppStatus.ready ∧
    (fetchIpUpdate initState (FetchResult.okJson none)).errorMessage = none ∧
    (fetchIpUpdate initState (FetchResult.okJson none)).currentIp = none := by
  refine ⟨by decide, rfl, rfl, rfl⟩

/-- C6 amended: on a parsed lookup body the checker stores whatever the
`ip` field holds (possibly absent) and sets `ready`; a network error,
non-success response, or unparseable body sets the connectivity message
and `error`. A parseable body lacking the address field therefore lands in
`ready` with an absent address, not in `error`. -/
theorem c6_fetch_amended (s : SessionState) (r : FetchResult) :
    (∀ ipField, r = FetchResult.okJson ipField →
      (fetchIpUpdate s r).status = AppStatus.ready ∧
      (fetchIpUpdate s r).currentIp = ipField) ∧
    ((r = FetchResult.netError ∨ r = FetchResult.notOk ∨ r = FetchResult.badJson) →
      (fetchIpUpdate s r).status = AppStatus.error ∧
      (fetchIpUpdate s r).errorMessage = some ipFetchErrorMsg) := by
  cases r <;> simp [fetchIpUpdate]

theorem c6_witness :
    (fetchIpUpdate initState (FetchResult.okJson (some "203.0.113.5"))).status
        = AppStatus.ready ∧
    (fetchIpUpdate initState (FetchResult.okJson (some "203.0.113.5"))).currentIp
        = some "203.0.113.5" ∧
    (fetchIpUpdate initState FetchResult.notOk).status = AppStatus.error ∧
    (fetchIpUpdate initState FetchResult.notOk).errorMessage = some ipFetchErrorMsg :=
  ⟨((c6_fetch_amended initState (FetchResult.okJson (some "203.0.113.5"))).1
      (some "203.0.113.5") rfl).1,
   ((c6_fetch_amended initState (FetchResult.okJson (some "203.0.113.5"))).1
      (some "203.0.113.5") rfl).2,
   ((c6_fetch_amended initState FetchResult.notOk).2 (Or.inr (Or.inl rfl))).1,
   ((c6_fetch_amended initState FetchResult.notOk).2 (Or.inr (Or.inl rfl))).2⟩

/-- C7 counterexample: the state after a failed identity lookup is
reachable, has status `error` — not `loading_ip` — and still has an absent
detected address, contradicting the claim that the address is absent only
while `loading_ip`. -/
theorem c7_counterexample :
    Reachable "10.0.0.1" (fetchIpUpdate initState FetchResult.netError) ∧
    (fetchIpUpdate initState FetchResult.netError).status ≠ AppStatus.loading_ip ∧
    (fetchIpUpdate initState FetchResult.netError).currentIp = none :=
  ⟨Reachable.step Reachable.init (Step.fetchDone initState FetchResult.netError rfl),
   by decide, rfl⟩

/-- C7 amended: in reachable states the detected address may be absent in
`loading_ip`, in `error` (a failed lookup never stores one), and in `ready`
(a parsed body may lack the field); it is always present — and equal to the
office address — while the status is `submitting` or `success`. -/
theorem c7_address_presence_amended (office : String) (s : SessionState)
    (h : Reachable office s)
    (hs : s.status = AppStatus.submitting ∨ s.status = AppStatus.success) :
    s.currentIp = some office :=
  (reachable_ipStatusInv office s h).2 hs

theorem c7_witness :
    ({ fullName := "Jane Doe", currentIp := some "203.0.113.5",
       status := AppStatus.submitting, errorMessage := none } : SessionState).currentIp
      = some "203.0.113.5" := by
  apply c7_address_presence_amended "203.0.113.5"
  · exact Reachable.step (Reachable.step (Reachable.step Reachable.init
      (Step.fetchDone initState (FetchResult.okJson (some "203.0.113.5")) rfl))
      (Step.setName (fetchIpUpdate initState (FetchResult.okJson (some "203.0.113.5")))
        "Jane Doe" (by decide) rfl))
      (Step.submitStart
        { fetchIpUpdate initState (FetchResult.okJson (some "203.0.113.5")) with
          fullName := "Jane Doe" }
        (by decide) rfl (by decide) rfl)
  · exact Or.inl rfl

/-- C8 counterexample: a run does not begin in `idle` — the initial status
is `loading_ip`, so the claimed first transition `idle → loading_ip` never
happens. -/
theorem c8_counterexample :
    initState.status = AppStatus.loading_ip ∧ initState.status ≠ AppStatus.idle := by
  refine ⟨rfl, by decide⟩

/-- C8 amended: every run begins directly in `loading_ip` (`idle` is
declared in the status union but never entered), and every status change
along a step from a reachable state follows the specified edges:
`loading_ip → ready | error`, `ready → submitting`,
`submitting → success | ready`, and `success → ready` via reset. -/
theorem c8_state_machine_amended (office : String) (s s' : SessionState)
    (hr : Reachable office s) (hstep : Step office s s')
    (hch : s'.status ≠ s.status) :
    initState.status = AppStatus.loading_ip ∧
    s.status ≠ AppStatus.idle ∧ s'.status ≠ AppStatus.idle ∧
    specEdge s.status s'.status = true := by
  refine ⟨rfl, reachable_status_ne_idle office s hr,
    reachable_status_ne_idle office s' (Reachable.step hr hstep), ?_⟩
  have hinv := reachable_ipStatusInv office s hr
  have hidle := reachable_status_ne_idle office s hr
  cases hstep with
  | fetchDone r hld => cases r <;> rw [hld] <;> rfl
  | setName n h1 h2 => exact absurd rfl hch
  | submitNameFail h1 h2 h3 => exact absurd rfl hch
  | submitWrongIp h1 h2 h3 h4 => exact absurd rfl hch
  | submitStart h1 h2 h3 h4 =>
    cases hst : s.status with
    | idle => exact absurd hst hidle
    | loading_ip => rw [show inputDisabled s = true by unfold inputDisabled; rw [hst]] at h2; exact absurd h2 (by decide)
    | ready => rfl
    | submitting => rw [show inputDisabled s = true by unfold inputDisabled; rw [hst]] at h2; exact absurd h2 (by decide)
    | success => exact absurd hst h1
    | error =>
      have hnone := hinv.1 (Or.inr hst)
      rw [hnone] at h4
      exact absurd h4 (by simp)
  | submitResolve h => rw [h]; rfl
  | submitReject h => rw [h]; rfl
  | reset h => rw [h]; rfl

theorem c8_witness :
    initState.status = AppStatus.loading_ip ∧
    initState.status ≠ AppStatus.idle ∧
    (fetchIpUpdate initState (FetchResult.okJson (some "1.2.3.4"))).status
        ≠ AppStatus.idle ∧
    specEdge initState.status
        (fetchIpUpdate initState (FetchResult.okJson (some "1.2.3.4"))).status = true :=
  c8_state_machine_amended "1.2.3.4" initState
    (fetchIpUpdate initState (FetchResult.okJson (some "1.2.3.4")))
    Reachable.init
    (Step.fetchDone initState (FetchResult.okJson (some "1.2.3.4")) rfl)
    (by decide)

end OACWifi
